import Mathlib

/-!
Verification of `src/password_validator.py` (repository Lalo-bin/taller_1).

The password validator is a pure function over strings.  We embed it
shallowly: Python strings become Lean `String`s (lists of Unicode scalar
values via `String.data`), the regular-expression checks become explicit
predicates on characters and lists of characters.

Regex correspondences used by the embedding:
  * `re.fullmatch(r'[A-Za-z0-9#$%!@+=]{10,}', pw)` succeeds exactly when
    `pw` has at least 10 characters and every character lies in the
    allowed class (`charsetLenOk`).
  * `len(re.findall(r'[A-Z]', pw))` is the number of characters of `pw`
    with code point in 65..90 (`countUpper`).
  * `len(re.findall(r'\d', pw))` counts Unicode decimal digits; it is
    only evaluated on strings that already passed the charset check, so
    every character is ASCII and the count equals the number of
    characters with code point in 48..57 (`countDigits`).
  * `re.search(r'[#$%!@+=]', pw)` succeeds exactly when some character
    of `pw` belongs to the special set (`hasSpecial`).
  * `PASSWORD_REGEX.fullmatch(pw)` — the composite regex
    `^(?=([A-Za-z0-9#$%!@+=]{10,})$)(?=(?:.*[A-Z]){3})(?=(?:.*\d){3})(?=.*[#$%!@+=]).*$`
    — succeeds exactly when the four lookahead conditions hold
    simultaneously: allowed charset with length at least 10, at least 3
    uppercase letters, at least 3 digits, at least one special
    character (`PASSWORD_REGEX_match`).
-/

/-- The special characters, from the regex class `[#$%!@+=]`. -/
def SPECIAL_CHARS : List Char := ['#', '$', '%', '!', '@', '+', '=']

/-- Membership in the special-character class `[#$%!@+=]`. -/
def isSpecial (c : Char) : Bool := SPECIAL_CHARS.contains c

/-- The regex class `[A-Z]`: code points 65..90. -/
def isUpperAZ (c : Char) : Bool := 65 ≤ c.toNat && c.toNat ≤ 90

/-- The regex class `[a-z]`: code points 97..122. -/
def isLowerAZ (c : Char) : Bool := 97 ≤ c.toNat && c.toNat ≤ 122

/-- The regex class `[0-9]` (`\d` restricted to ASCII): code points 48..57. -/
def isDigit09 (c : Char) : Bool := 48 ≤ c.toNat && c.toNat ≤ 57

/-- The allowed character class `[A-Za-z0-9#$%!@+=]`. -/
def isAllowed (c : Char) : Bool := isUpperAZ c || isLowerAZ c || isDigit09 c || isSpecial c

/-- `re.fullmatch(r'[A-Za-z0-9#$%!@+=]{10,}', pw)`: length at least 10 and
every character allowed. -/
def charsetLenOk (l : List Char) : Bool := decide (10 ≤ l.length) && l.all isAllowed

/-- `len(re.findall(r'[A-Z]', pw))`. -/
def countUpper (l : List Char) : Nat := (l.filter isUpperAZ).length

/-- `len(re.findall(r'\d', pw))` (evaluated on charset-checked, hence ASCII,
strings). -/
def countDigits (l : List Char) : Nat := (l.filter isDigit09).length

/-- `re.search(r'[#$%!@+=]', pw)`. -/
def hasSpecial (l : List Char) : Bool := l.any isSpecial

/-- `PASSWORD_REGEX.fullmatch(pw)`: conjunction of the four lookaheads of
the composite regex (see the module docstring). -/
def PASSWORD_REGEX_match (l : List Char) : Bool :=
  charsetLenOk l && decide (3 ≤ countUpper l) && decide (3 ≤ countDigits l) && hasSpecial l

/-- Message of line 55 of the source. -/
def MSG_CHARSET_OR_LEN : String := "Largo < 10 o caracteres fuera del conjunto permitido"

/-- Message of line 56 of the source. -/
def MSG_CHARSET : String := "Caracteres fuera del conjunto permitido"

/-- Message of line 58 of the source. -/
def MSG_UPPER : String := "Faltan mayúsculas (≥3)"

/-- Message of line 60 of the source. -/
def MSG_DIGITS : String := "Faltan dígitos (≥3)"

/-- Message of line 62 of the source. -/
def MSG_SPECIAL : String := "Falta carácter especial [#$%!@+=]"

/-- Message of line 66 of the source. -/
def MSG_COMPOSITE : String := "No cumple la política"

/-- Message of line 66 of the source (success case). -/
def MSG_OK : String := "OK"

/-- `validate_password` (source lines 48–66).  The `isinstance` guard of
line 49 is vacuous here: the argument is a string by type.  The chain of
early returns becomes a chain of conditionals. -/
def validate_password (pw : String) : Bool × String :=
  let l := pw.data
  if !(charsetLenOk l) then
    if l.length < 10 then (false, MSG_CHARSET_OR_LEN)
    else (false, MSG_CHARSET)
  else if countUpper l < 3 then (false, MSG_UPPER)
  else if countDigits l < 3 then (false, MSG_DIGITS)
  else if !(hasSpecial l) then (false, MSG_SPECIAL)
  else if PASSWORD_REGEX_match l then (true, MSG_OK)
  else (false, MSG_COMPOSITE)

/-- Python `str.strip()` whitespace: the 29 code points for which
`str.isspace()` holds — 0x09..0x0D (tab, LF, VT, FF, CR), the separators
0x1C..0x1F, space 0x20, next line U+0085, no-break space U+00A0, ogham
space U+1680, the space separators U+2000..U+200A, line/paragraph
separators U+2028/U+2029, narrow no-break space U+202F, medium
mathematical space U+205F and ideographic space U+3000. -/
def isPySpace (c : Char) : Bool :=
  (9 ≤ c.toNat && c.toNat ≤ 13) || (28 ≤ c.toNat && c.toNat ≤ 32) ||
  c.toNat = 133 || c.toNat = 160 || c.toNat = 5760 ||
  (8192 ≤ c.toNat && c.toNat ≤ 8202) || c.toNat = 8232 || c.toNat = 8233 ||
  c.toNat = 8239 || c.toNat = 8287 || c.toNat = 12288

/-- `line.strip()`: drop whitespace from both ends. -/
def stripList (l : List Char) : List Char :=
  ((l.dropWhile isPySpace).reverse.dropWhile isPySpace).reverse

/-- The second component of `line.split(":", 1)`: everything after the
first `':'`. -/
def splitAfterColon (l : List Char) : List Char :=
  (l.dropWhile (fun c => !(c = ':'))).tail

/-- `parse_line` (source lines 39–46). -/
def parse_line (line : String) : Option String :=
  let s := stripList line.data
  if s.isEmpty then none
  else if s.head? = some '#' then none
  else if s.contains ':' then some ⟨stripList (splitAfterColon s)⟩
  else some ⟨s⟩

/-! ### Helper lemmas -/

theorem charsetLenOk_iff (l : List Char) :
    charsetLenOk l = true ↔ 10 ≤ l.length ∧ ∀ c ∈ l, isAllowed c = true := by
  simp [charsetLenOk, List.all_eq_true]

theorem validate_of_charset_fail (pw : String) (h : charsetLenOk pw.data = false) :
    validate_password pw =
      if pw.data.length < 10 then (false, MSG_CHARSET_OR_LEN) else (false, MSG_CHARSET) := by
  simp [validate_password, h]

theorem validate_fst_eq (pw : String) :
    (validate_password pw).1 = PASSWORD_REGEX_match pw.data := by
  unfold validate_password
  dsimp only
  split_ifs with h1 h2 h3 h4 h5 h6 <;>
    simp_all [PASSWORD_REGEX_match, Bool.not_eq_true', Nat.not_le, Nat.not_lt]

/-- Every allowed character is ASCII. -/
theorem isAllowed_lt_128 (c : Char) (h : isAllowed c = true) : c.toNat < 128 := by
  simp [isAllowed, isUpperAZ, isLowerAZ, isDigit09, isSpecial, SPECIAL_CHARS] at h
  rcases h with ((⟨h1, h2⟩ | ⟨h1, h2⟩) | ⟨h1, h2⟩) | h | h | h | h | h | h | h
  all_goals first | omega | (subst h; decide)

/-! ### Claims -/

/-- C1: `validate_password p` is valid exactly when `p` has length at least
10, every character is allowed, there are at least 3 uppercase letters, at
least 3 digits, and at least one special character. -/
theorem C1_valid_iff (pw : String) :
    (validate_password pw).1 = true ↔
      (10 ≤ pw.data.length ∧ (∀ c ∈ pw.data, isAllowed c = true) ∧
       3 ≤ countUpper pw.data ∧ 3 ≤ countDigits pw.data ∧ hasSpecial pw.data = true) := by
  rw [validate_fst_eq]
  simp [PASSWORD_REGEX_match, charsetLenOk, List.all_eq_true, and_assoc]

/-- Witness for C1 at the concrete password "AAA111#aaa". -/
theorem C1_valid_iff_witness : (validate_password "AAA111#aaa").1 = true :=
  (C1_valid_iff "AAA111#aaa").mpr (by decide)

/-- C2: when the combined charset-and-length check fails, the verdict is
invalid; the reason is the ambiguous combined message when the length is
below 10, and the disallowed-character message when the length is at least
10 (in which case some character is outside the allowed set). -/
theorem C2_charset_reasons (pw : String) (h : charsetLenOk pw.data = false) :
    (validate_password pw).1 = false ∧
    (pw.data.length < 10 → (validate_password pw).2 = MSG_CHARSET_OR_LEN) ∧
    (10 ≤ pw.data.length →
      (∃ c ∈ pw.data, isAllowed c = false) ∧ (validate_password pw).2 = MSG_CHARSET) := by
  have hv := validate_of_charset_fail pw h
  refine ⟨?_, ?_, ?_⟩
  · rw [hv]; split_ifs <;> rfl
  · intro hl; rw [hv, if_pos hl]
  · intro hl
    have hall : pw.data.all isAllowed = false := by
      cases hba : pw.data.all isAllowed
      · rfl
      · rw [charsetLenOk, hba, Bool.and_true] at h
        exact absurd hl (by simpa using h)
    rw [List.all_eq_false] at hall
    obtain ⟨c, hcmem, hcbad⟩ := hall
    refine ⟨⟨c, hcmem, by simpa using hcbad⟩, ?_⟩
    rw [hv, if_neg (Nat.not_lt.mpr hl)]

/-- Witness for C2 at the concrete password "abc" (length 3). -/
theorem C2_charset_reasons_witness :
    (validate_password "abc").1 = false ∧ (validate_password "abc").2 = MSG_CHARSET_OR_LEN :=
  ⟨(C2_charset_reasons "abc" (by decide)).1, (C2_charset_reasons "abc" (by decide)).2.1 (by decide)⟩

/-- C3: a password that passes the charset-and-length check but has fewer
than 3 uppercase letters and fewer than 3 digits reports the uppercase
reason, never the digit reason: the checks run in fixed priority order. -/
theorem C3_priority_upper (pw : String) (h1 : charsetLenOk pw.data = true)
    (h2 : countUpper pw.data < 3) (h3 : countDigits pw.data < 3) :
    validate_password pw = (false, MSG_UPPER) := by
  simp [validate_password, h1, h2]

/-- Witness for C3 at the concrete password "aaaaaaaaaa". -/
theorem C3_priority_upper_witness : validate_password "aaaaaaaaaa" = (false, MSG_UPPER) :=
  C3_priority_upper "aaaaaaaaaa" (by decide) (by decide) (by decide)

/-- C4: the defensive composite-regex branch is unreachable: the composite
regex matches whenever the four individual checks pass, so the verdict
reason is never the composite-policy message. -/
theorem C4_composite_unreachable (pw : String) :
    (charsetLenOk pw.data = true → 3 ≤ countUpper pw.data → 3 ≤ countDigits pw.data →
      hasSpecial pw.data = true → PASSWORD_REGEX_match pw.data = true) ∧
    (validate_password pw).2 ≠ MSG_COMPOSITE := by
  constructor
  · intro h1 h2 h3 h4
    simp [PASSWORD_REGEX_match, h1, h2, h3, h4]
  · unfold validate_password
    dsimp only
    split_ifs with a b c d e f
    · decide
    · decide
    · decide
    · decide
    · decide
    · decide
    · exfalso
      apply f
      simp_all [PASSWORD_REGEX_match, Bool.not_eq_true', Nat.not_lt]

/-- Witness for C4 at the concrete password "AAA111#aaa". -/
theorem C4_composite_unreachable_witness :
    PASSWORD_REGEX_match ("AAA111#aaa").data = true ∧
    (validate_password "AAA111#aaa").2 ≠ MSG_COMPOSITE :=
  ⟨(C4_composite_unreachable "AAA111#aaa").1 (by decide) (by decide) (by decide) (by decide),
   (C4_composite_unreachable "AAA111#aaa").2⟩

/-- C5: verdict invariant: the verdict is valid exactly when the reason is
"OK", and an invalid verdict carries one of the failure messages of the
four failure codes (the charset/length code has two sub-messages). -/
theorem C5_invariant (pw : String) :
    ((validate_password pw).1 = true ↔ (validate_password pw).2 = MSG_OK) ∧
    ((validate_password pw).1 = false →
      (validate_password pw).2 = MSG_CHARSET_OR_LEN ∨ (validate_password pw).2 = MSG_CHARSET ∨
      (validate_password pw).2 = MSG_UPPER ∨ (validate_password pw).2 = MSG_DIGITS ∨
      (validate_password pw).2 = MSG_SPECIAL) := by
  unfold validate_password
  dsimp only
  split_ifs with a b c d e f
  · decide
  · decide
  · decide
  · decide
  · decide
  · decide
  · exfalso
    apply f
    simp_all [PASSWORD_REGEX_match, Bool.not_eq_true', Nat.not_lt]

/-- Witness for C5 at the concrete password "aaa". -/
theorem C5_invariant_witness :
    (validate_password "aaa").2 = MSG_CHARSET_OR_LEN ∨ (validate_password "aaa").2 = MSG_CHARSET ∨
    (validate_password "aaa").2 = MSG_UPPER ∨ (validate_password "aaa").2 = MSG_DIGITS ∨
    (validate_password "aaa").2 = MSG_SPECIAL :=
  (C5_invariant "aaa").2 (by decide)

/-- C6: totality at the boundary: every string (the empty string included)
produces a verdict, and the empty string yields an invalid verdict with
the combined length/charset message. -/
theorem C6_total_empty :
    (∀ pw : String, ∃ v m, validate_password pw = (v, m)) ∧
    validate_password "" = (false, MSG_CHARSET_OR_LEN) := by
  constructor
  · intro pw
    exact ⟨(validate_password pw).1, (validate_password pw).2, rfl⟩
  · decide

/-- C7: a password containing a non-ASCII character is invalid with a
charset/length failure reason, since non-ASCII characters are outside the
allowed set. -/
theorem C7_nonascii (pw : String) (c : Char) (hc : c ∈ pw.data) (h : 128 ≤ c.toNat) :
    (validate_password pw).1 = false ∧
    ((validate_password pw).2 = MSG_CHARSET_OR_LEN ∨ (validate_password pw).2 = MSG_CHARSET) := by
  have hbad : isAllowed c = false := by
    cases hb : isAllowed c
    · rfl
    · have := isAllowed_lt_128 c hb
      omega
  have hcs : charsetLenOk pw.data = false := by
    cases hcs0 : charsetLenOk pw.data
    · rfl
    · rw [charsetLenOk_iff] at hcs0
      have := hcs0.2 c hc
      rw [hbad] at this
      exact absurd this (by decide)
  have hv := validate_of_charset_fail pw hcs
  rw [hv]
  split_ifs with hl
  · exact ⟨rfl, Or.inl rfl⟩
  · exact ⟨rfl, Or.inr rfl⟩

/-- Witness for C7 at the concrete password "AAAÁ111#aa" (contains the
non-ASCII character Á, code point 193). -/
theorem C7_nonascii_witness :
    (validate_password "AAAÁ111#aa").1 = false ∧
    ((validate_password "AAAÁ111#aa").2 = MSG_CHARSET_OR_LEN ∨
     (validate_password "AAAÁ111#aa").2 = MSG_CHARSET) :=
  C7_nonascii "AAAÁ111#aa" 'Á' (by decide) (by decide)

/-- C8: determinism: the verdict depends only on the argument, so equal
inputs yield identical verdicts (in this embedding the validator is a
pure function, so two invocations on the same string coincide). -/
theorem C8_deterministic (p q : String) (h : p = q) :
    validate_password p = validate_password q := by rw [h]

/-- Witness for C8 at the concrete password "AAA111#aaa". -/
theorem C8_deterministic_witness :
    validate_password "AAA111#aaa" = validate_password "AAA111#aaa" :=
  C8_deterministic "AAA111#aaa" "AAA111#aaa" rfl

/-- C9: totality/termination: the validator, embedded as a total Lean
function built from single traversals of the character list, produces a
result on every input. -/
theorem C9_total (pw : String) : ∃ r : Bool × String, validate_password pw = r :=
  ⟨validate_password pw, rfl⟩

/-- C10: loader behaviour of `parse_line`: a line that is empty after
stripping, or whose stripped form begins with '#', is skipped (returns
`none`) — even though '#' is a member of the special set — and a
non-comment line containing ':' yields the stripped text after the first
':' . -/
theorem C10_parse_line_skip (line : String) :
    (stripList line.data = [] → parse_line line = none) ∧
    ((stripList line.data).head? = some '#' → parse_line line = none) ∧
    isSpecial '#' = true ∧
    (stripList line.data ≠ [] → (stripList line.data).head? ≠ some '#' →
      (stripList line.data).contains ':' = true →
      parse_line line = some ⟨stripList (splitAfterColon (stripList line.data))⟩) := by
  refine ⟨?_, ?_, by decide, ?_⟩
  · intro h
    simp [parse_line, h]
  · intro h
    have hne : (stripList line.data).isEmpty = false := by
      cases hs : stripList line.data
      · simp [hs] at h
      · simp [hs]
    simp [parse_line, hne, h]
  · intro h1 h2 h3
    have hmem : ':' ∈ stripList line.data := by simpa using h3
    have hne : (stripList line.data).isEmpty = false := by
      cases hs : stripList line.data
      · exact absurd hs h1
      · simp [hs]
    simp [parse_line, hne, h2, hmem]

/-- Witness for C10: a line starting with '#' is skipped, and a
"PASSWORD: value" line yields the stripped value. -/
theorem C10_parse_line_skip_witness :
    parse_line "#AAA111@aaa" = none ∧ parse_line "PASSWORD: abc" = some "abc" := by
  constructor
  · exact (C10_parse_line_skip "#AAA111@aaa").2.1 (by decide)
  · have h := (C10_parse_line_skip "PASSWORD: abc").2.2.2 (by decide) (by decide) (by decide)
    rw [h]
    rfl
